import Mathlib

/-!
Verification development for the libportal USB portal client
(libportal/usb.c and libportal/usbsession.c).

The C code is embedded shallowly:

* GVariant payloads are modeled at the decoded level: a per-device result
  dictionary (the a{sv} map attached to a device id) becomes a record of
  Option fields, one per key the code looks up, where none models a key
  absent from the map (g_variant_lookup returning FALSE).
* The asynchronous call machinery (GTask, GDBus signal subscriptions,
  cancellable hooks) becomes an explicit state machine: a system state plus
  a step function over delivered events, translated handler by handler from
  usb.c.  Resolutions delivered to the completion sink are accumulated in a
  list so resolve-once properties are statements about its length.
* Bus-facing side effects (signal subscription, method calls, Close calls)
  are modeled as an emitted list of actions, in the order the source
  performs them.
* The synchronous finishing loop of xdp_portal_usb_finish_acquire_devices
  is modeled as structural recursion over the stream of broker replies it
  observes; exhausting a finite stream without having seen finished=true
  models the loop spinning without returning (the C loop has no other exit).
-/

/-- XdpUsbDeviceAcquireRequest from usb.c: a device to request,
holding the device id and the writable flag. -/
structure XdpUsbDeviceAcquireRequest where
  id : String
  writable : Bool
deriving DecidableEq, Repr

/-- xdp_usb_device_acquire_request_new from usb.c: builds a fresh request
object from an id (strdup) and a writable flag. -/
def xdp_usb_device_acquire_request_new (id : String) (writable : Bool) :
    XdpUsbDeviceAcquireRequest :=
  { id := id, writable := writable }

/-- xdp_usb_device_acquire_request_copy from usb.c: a copy of the source
request built through xdp_usb_device_acquire_request_new. -/
def xdp_usb_device_acquire_request_copy (source : XdpUsbDeviceAcquireRequest) :
    XdpUsbDeviceAcquireRequest :=
  xdp_usb_device_acquire_request_new source.id source.writable

/-- XdpUsbDevice from usb.c: an acquired device result record
(id, success flag, file descriptor, optional error message). -/
structure XdpUsbDevice where
  id : String
  success : Bool
  fd : Int
  error : Option String
deriving DecidableEq, Repr

/-- xdp_usb_device_new from usb.c: a successfully acquired device record. -/
def xdp_usb_device_new (id : String) (fd : Int) : XdpUsbDevice :=
  { id := id, success := true, error := none, fd := fd }

/-- xdp_usb_device_error_new from usb.c: a per-device failure record with
success FALSE, descriptor -1, and the error message (possibly absent, since
strdup of NULL yields NULL). -/
def xdp_usb_device_error_new (id : String) (error : Option String) : XdpUsbDevice :=
  { id := id, success := false, error := error, fd := -1 }

/-- The decoded a{sv} result dictionary attached to one device id in broker
replies; each field is none when g_variant_lookup finds no such key. -/
structure DeviceResultDict where
  success : Option Bool
  fd : Option Int
  error : Option String
deriving DecidableEq, Repr

/-- One decoded (device id, result dictionary) entry of a broker reply. -/
abbrev DeviceResultEntry := String × DeviceResultDict

/-- A resolution delivered to the completion sink of a call: the GTask is
returned a pointer (here the list of granted descriptors), an error, or a
cancellation error (G_IO_ERROR_CANCELLED, which callers can distinguish). -/
inductive UsbResolution where
  | success (fds : List Int)
  | ioError (msg : String)
  | ioCancelled (msg : String)
deriving DecidableEq, Repr

/-- Loop body of the status-0 branch of acquire_response_received in usb.c:
a device whose result map has success=true contributes its descriptor (when
an fd entry is present) to the list appended with g_slist_append; every
other device contributes nothing. -/
def acquire_fold_step (device_list : List Int) (dev : DeviceResultEntry) : List Int :=
  if dev.snd.success = some true then
    match dev.snd.fd with
    | some fd => device_list ++ [fd]
    | none => device_list
  else device_list

/-- The device list built by acquire_response_received (usb.c, status 0):
iterate the decoded entries, appending granted descriptors. -/
def acquire_response_device_list (devices : List DeviceResultEntry) : List Int :=
  devices.foldl acquire_fold_step []

/-- Modelled from the spec words, for the refinement in C7: extract each
device success flag and, if granted, its file descriptor, as an ordered
list. -/
def grantedDescriptors (devices : List DeviceResultEntry) : List Int :=
  devices.filterMap (fun dev => if dev.snd.success = some true then dev.snd.fd else none)

/-- acquire_response_received from usb.c, at the decoded level: dispatch on
the Response status, building the descriptor list on 0, a cancellation error
on 1, and a generic failure otherwise.  The message strings are the ones in
the source. -/
def acquire_response_received (response : Nat) (devices : List DeviceResultEntry) :
    UsbResolution :=
  if response = 0 then
    UsbResolution.success (acquire_response_device_list devices)
  else if response = 1 then
    UsbResolution.ioCancelled "Acquire USB devices canceled"
  else
    UsbResolution.ioError "Acquire USB devices failed"

/-- Loop body of append_variant_to_fd_list in usb.c: decode one
(id, result map) entry with defaults success=FALSE, fd=-1, error=NULL, then
build a success record or a per-device failure record. -/
def decode_acquired_device (entry : DeviceResultEntry) : XdpUsbDevice :=
  if entry.snd.success.getD false then
    xdp_usb_device_new entry.fst (entry.snd.fd.getD (-1))
  else
    xdp_usb_device_error_new entry.fst entry.snd.error

/-- append_variant_to_fd_list from usb.c: fold the decoded entries of one
AcquireDevicesFinish page onto the accumulated list with g_slist_append. -/
def append_variant_to_fd_list (fd_list : List XdpUsbDevice)
    (entries : List DeviceResultEntry) : List XdpUsbDevice :=
  entries.foldl (fun acc entry => acc ++ [decode_acquired_device entry]) fd_list

/-- One observed AcquireDevicesFinish round trip: none models the
synchronous call itself failing (result NULL, error set); otherwise the
decoded page entries plus the finished flag. -/
abbrev FinishPage := Option (List DeviceResultEntry × Bool)

/-- xdp_portal_usb_finish_acquire_devices from usb.c: the while-not-finished
loop over synchronous AcquireDevicesFinish calls.  Faithful to the source: a
failed call is given no handling (no else branch on `if (result)`), so the
loop simply re-issues the call; a successful page is appended and the
finished flag is or-ed in, exiting the loop once true.  The argument list is
the finite stream of broker replies the loop observes; exhausting it without
a finished page models the loop spinning without ever returning (none). -/
def xdp_portal_usb_finish_acquire_devices (pages : List FinishPage)
    (fd_list : List XdpUsbDevice) : Option (List XdpUsbDevice) :=
  match pages with
  | [] => none
  | none :: rest => xdp_portal_usb_finish_acquire_devices rest fd_list
  | some (entries, finished) :: rest =>
      let fd_list := append_variant_to_fd_list fd_list entries
      if finished then some fd_list
      else xdp_portal_usb_finish_acquire_devices rest fd_list

/-- Bus-facing actions emitted by the acquisition workflow, in source
order.  The method call records the member, the parent handle, the encoded
device batch and the handle token; parentExport is the request to the
external parent-window collaborator (not a bus call). -/
inductive BusStep where
  | signalSubscribe (path : String)
  | methodCall (member : String) (handle : String)
      (devices : List (String × Bool)) (token : String)
  | closeCall (path : String)
  | parentExport
deriving DecidableEq, Repr

/-- add_to_variant from usb.c: one request encodes as its id paired with the
writable flag (the only key of the per-device dict). -/
def add_to_variant (dev : XdpUsbDeviceAcquireRequest) : String × Bool :=
  (dev.id, dev.writable)

/-- The correlation object path for a request: the fixed request path base
(REQUEST_PATH_PREFIX, defined outside these sources) joined with the caller
sender name and the per-call token, as g_strconcat does in acquire_devices. -/
def requestPathFor (sender token : String) : String :=
  "/org/freedesktop/portal/desktop/request/" ++ sender ++ "/" ++ token

/-- The UsbCall record of usb.c restricted to the AcquireDevices fields the
claims concern: the parent handle (none until exported), the copied device
batch, and the correlation state (request path, Response subscription id,
cancelled hook id, 0 meaning none). -/
structure UsbCall where
  parent_handle : Option String
  devices : List XdpUsbDeviceAcquireRequest
  request_path : Option String
  signal_id : Nat
  cancelled_id : Nat
deriving DecidableEq, Repr

/-- acquire_devices from usb.c as a transition emitting bus steps.  Without
a parent handle it only asks the parent collaborator to export one and
returns.  With a handle it derives the correlation path, subscribes to that
path Response signal, connects the cancelled hook when a cancellable is
present, and only then issues the AcquireDevices method call - the emitted
step list preserves this source order. -/
def acquire_devices (sender token : String) (call : UsbCall)
    (hasCancellable : Bool) : UsbCall × List BusStep :=
  match call.parent_handle with
  | none => (call, [BusStep.parentExport])
  | some handle =>
      ({ call with
          request_path := some (requestPathFor sender token),
          signal_id := 1,
          cancelled_id := if hasCancellable then 1 else 0 },
       [BusStep.signalSubscribe (requestPathFor sender token),
        BusStep.methodCall "AcquireDevices" handle
          (List.map add_to_variant call.devices) token])

/-- parent_exported from usb.c: store the exported handle on the call; the
caller then re-enters acquire_devices. -/
def parent_exported (handle : String) (call : UsbCall) : UsbCall :=
  { call with parent_handle := some handle }

/-- xdp_portal_usb_acquire_devices from usb.c: build the UsbCall - copying
the parent when supplied, otherwise storing the empty handle, and copying
the device array element-wise through xdp_usb_device_acquire_request_copy
(g_ptr_array_copy) - then enter acquire_devices. -/
def xdp_portal_usb_acquire_devices (hasParent : Bool)
    (devices : List XdpUsbDeviceAcquireRequest) (sender token : String)
    (hasCancellable : Bool) : UsbCall × List BusStep :=
  let call : UsbCall :=
    { parent_handle := if hasParent then none else some "",
      devices := List.map xdp_usb_device_acquire_request_copy devices,
      request_path := none,
      signal_id := 0,
      cancelled_id := 0 }
  acquire_devices sender token call hasCancellable

/-- Live correlation state of an in-flight AcquireDevices call: whether the
Response subscription and the cancelled hook are still attached. -/
structure AcquireCtx where
  signalSubscribed : Bool
  cancelConnected : Bool
deriving DecidableEq, Repr

/-- System state around one in-flight AcquireDevices call, after
acquire_devices has sent the request.  ctx is none once usb_call_free ran;
replyPending records that the method-call reply callback (usb_call_returned)
has not yet been delivered - GDBus delivers it exactly once and nothing in
usb.c detaches it; resolutions is the sequence of values delivered to the
GTask completion sink; closeCalls counts Close attempts on the correlation
path; postFreeCallbacks counts handler invocations on the freed call. -/
structure AcquireSys where
  ctx : Option AcquireCtx
  replyPending : Bool
  resolutions : List UsbResolution
  closeCalls : Nat
  postFreeCallbacks : Nat
deriving DecidableEq, Repr

/-- Events the event loop can deliver to the in-flight call: the reply to
the AcquireDevices method call (failed or not), the Response signal on the
correlation path, or the cancellable firing. -/
inductive AcquireEvent where
  | methodReply (failed : Bool)
  | responseSignal (status : Nat) (devices : List DeviceResultEntry)
  | cancelFired
deriving DecidableEq, Repr

/-- One event delivery, translated handler by handler from usb.c.

cancelFired runs acquire_cancelled_cb only while the hook is connected
(usb_call_free and acquire_response_received disconnect it): it issues a
Close on the correlation path, returns a cancellation error, and frees the
call.

responseSignal runs acquire_response_received only while the subscription
exists (usb_call_free unsubscribes): it disconnects the cancelled hook,
resolves per the status, and frees the call.

methodReply runs usb_call_returned; GDBus invokes this callback exactly
once whether or not the UsbCall still exists, since nothing detaches it.
On a live call a failed reply disconnects the hook, returns the error and
frees the call, and a successful reply does nothing (the Response signal is
awaited).  On a freed call the callback still runs (counted in
postFreeCallbacks) and its error branch returns the error on the freed
task, exactly as the source text does. -/
def acquireStep (s : AcquireSys) (e : AcquireEvent) : AcquireSys :=
  match e with
  | AcquireEvent.cancelFired =>
      match s.ctx with
      | some c =>
          if c.cancelConnected then
            { s with
                ctx := none,
                closeCalls := s.closeCalls + 1,
                resolutions := s.resolutions ++
                  [UsbResolution.ioCancelled "Acquire USB devices call canceled by caller"] }
          else s
      | none => s
  | AcquireEvent.responseSignal status devices =>
      match s.ctx with
      | some c =>
          if c.signalSubscribed then
            { s with
                ctx := none,
                resolutions := s.resolutions ++ [acquire_response_received status devices] }
          else s
      | none => s
  | AcquireEvent.methodReply failed =>
      if s.replyPending then
        match s.ctx with
        | some _ =>
            if failed then
              { s with
                  replyPending := false,
                  ctx := none,
                  resolutions := s.resolutions ++
                    [UsbResolution.ioError "AcquireDevices call failed"] }
            else { s with replyPending := false }
        | none =>
            if failed then
              { s with
                  replyPending := false,
                  postFreeCallbacks := s.postFreeCallbacks + 1,
                  resolutions := s.resolutions ++
                    [UsbResolution.ioError "AcquireDevices call failed"] }
            else
              { s with
                  replyPending := false,
                  postFreeCallbacks := s.postFreeCallbacks + 1 }
      else s

/-- State right after acquire_devices sent the request with a cancellable
supplied: subscription and hook attached, method reply pending, nothing
delivered yet. -/
def initAcquireSys : AcquireSys :=
  { ctx := some { signalSubscribed := true, cancelConnected := true },
    replyPending := true,
    resolutions := [],
    closeCalls := 0,
    postFreeCallbacks := 0 }

/-- Run a sequence of delivered events from a starting state. -/
def runAcquire (s : AcquireSys) (t : List AcquireEvent) : AcquireSys :=
  t.foldl acquireStep s

/-- Invariant of the acquire call system: while the call is still live its
subscription and hook are attached and nothing has been delivered to the
completion sink yet. -/
def AcquireInv (s : AcquireSys) : Prop :=
  ∀ c, s.ctx = some c →
    c.cancelConnected = true ∧ c.signalSubscribed = true ∧ s.resolutions = []

/-- Claim C4 as stated, at the concrete input of the claim: the Response
handler, on status 0 with the single device result map carrying
success=false and error denied, resolves successfully with a one-element
result list.  (In the source the status-0 resolution payload is a list of
raw descriptors, so the element-field part of the claim is not even
expressible there; the one-element length is the weakest consequence.) -/
def responseDeniedOneElementClaim : Prop :=
  ∃ fds : List Int,
    acquire_response_received 0
        [("dev1", { success := some false, fd := none, error := some "denied" })] =
      UsbResolution.success fds ∧ fds.length = 1

/-- Joint state of one generic Session and the USB Session built over it,
with teardown-effect counters.  parent_usb_session is the weak backlink the
Session keeps to the USB Session; usb_signal_id is the DeviceEvents
subscription id (0 when none); unsubscribeCount counts unsubscriptions of
that subscription; criticalCount counts loud lifecycle diagnostics. -/
structure SessionPairState where
  parentAlive : Bool
  usbAlive : Bool
  parent_usb_session : Bool
  parentClosedOnBroker : Bool
  usb_signal_id : Nat
  unsubscribeCount : Nat
  criticalCount : Nat
deriving DecidableEq, Repr

/-- State produced by _xdp_usb_session_new in usbsession.c: both objects
alive, the backlink set, the DeviceEvents subscription taken (a nonzero
id), the USB Session holding the only strong reference to the Session. -/
def xdp_usb_session_new_state : SessionPairState :=
  { parentAlive := true,
    usbAlive := true,
    parent_usb_session := true,
    parentClosedOnBroker := false,
    usb_signal_id := 1,
    unsubscribeCount := 0,
    criticalCount := 0 }

/-- Modelled from the spec: xdp_session_close lives in session.c, which is
not among these sources.  Per the spec the generic session close sends the
broker a Close for the session; it does not touch the USB Session fields
(the DeviceEvents subscription, the references, the backlink). -/
def xdp_session_close (s : SessionPairState) : SessionPairState :=
  { s with parentClosedOnBroker := true }

/-- xdp_usb_session_close from usbsession.c: exactly a call of
xdp_session_close on the parent session. -/
def xdp_usb_session_close (s : SessionPairState) : SessionPairState :=
  xdp_session_close s

/-- xdp_usb_session_finalize from usbsession.c.  With the parent session
still present: unsubscribe DeviceEvents if the id is nonzero, remove the
weak reference, null the parent backlink, and drop the strong reference -
which, being the only one, lets the parent session go too.  With the parent
already gone: report a loud diagnostic and only chain up. -/
def xdp_usb_session_finalize (s : SessionPairState) : SessionPairState :=
  if s.parentAlive then
    { s with
        unsubscribeCount :=
          if s.usb_signal_id ≠ 0 then s.unsubscribeCount + 1 else s.unsubscribeCount,
        parent_usb_session := false,
        parentAlive := false,
        usbAlive := false }
  else
    { s with criticalCount := s.criticalCount + 1, usbAlive := false }

/-! Helper lemmas. -/

theorem decode_acquired_device_id (entry : DeviceResultEntry) :
    (decode_acquired_device entry).id = entry.fst := by
  unfold decode_acquired_device xdp_usb_device_new xdp_usb_device_error_new
  split <;> rfl

theorem append_variant_to_fd_list_eq (fd_list : List XdpUsbDevice)
    (entries : List DeviceResultEntry) :
    append_variant_to_fd_list fd_list entries =
      fd_list ++ List.map decode_acquired_device entries := by
  induction entries generalizing fd_list with
  | nil => simp [append_variant_to_fd_list]
  | cons e es ih =>
      have h1 : append_variant_to_fd_list fd_list (e :: es) =
          append_variant_to_fd_list (fd_list ++ [decode_acquired_device e]) es := rfl
      rw [h1, ih]
      simp

theorem finish_skip_failed_page (rest : List FinishPage) (fd_list : List XdpUsbDevice) :
    xdp_portal_usb_finish_acquire_devices (none :: rest) fd_list =
      xdp_portal_usb_finish_acquire_devices rest fd_list := rfl

theorem finish_finished_page (entries : List DeviceResultEntry)
    (rest : List FinishPage) (fd_list : List XdpUsbDevice) :
    xdp_portal_usb_finish_acquire_devices (some (entries, true) :: rest) fd_list =
      some (fd_list ++ List.map decode_acquired_device entries) := by
  have h1 : xdp_portal_usb_finish_acquire_devices (some (entries, true) :: rest) fd_list =
      some (append_variant_to_fd_list fd_list entries) := rfl
  rw [h1, append_variant_to_fd_list_eq]

theorem finish_unfinished_page (entries : List DeviceResultEntry)
    (rest : List FinishPage) (fd_list : List XdpUsbDevice) :
    xdp_portal_usb_finish_acquire_devices (some (entries, false) :: rest) fd_list =
      xdp_portal_usb_finish_acquire_devices rest
        (fd_list ++ List.map decode_acquired_device entries) := by
  have h1 : xdp_portal_usb_finish_acquire_devices (some (entries, false) :: rest) fd_list =
      xdp_portal_usb_finish_acquire_devices rest
        (append_variant_to_fd_list fd_list entries) := rfl
  rw [h1, append_variant_to_fd_list_eq]

theorem finish_skip_unfinished_pages (pre : List (List DeviceResultEntry))
    (ps : List FinishPage) (fd_list : List XdpUsbDevice) :
    xdp_portal_usb_finish_acquire_devices
        (List.map (fun es => some (es, false)) pre ++ ps) fd_list =
      xdp_portal_usb_finish_acquire_devices ps
        (fd_list ++ List.map decode_acquired_device pre.flatten) := by
  induction pre generalizing fd_list with
  | nil => simp
  | cons es pre ih =>
      simp only [List.map_cons, List.cons_append]
      rw [finish_unfinished_page, ih]
      simp

theorem foldl_acquire_fold_step (devices : List DeviceResultEntry) (acc : List Int) :
    devices.foldl acquire_fold_step acc = acc ++ grantedDescriptors devices := by
  induction devices generalizing acc with
  | nil => simp [grantedDescriptors]
  | cons d ds ih =>
      rw [List.foldl_cons, ih]
      simp only [grantedDescriptors, List.filterMap_cons]
      unfold acquire_fold_step
      by_cases h : d.snd.success = some true
      · rw [if_pos h, if_pos h]
        cases hfd : d.snd.fd with
        | none => simp
        | some fd => simp
      · rw [if_neg h, if_neg h]

theorem acquire_response_device_list_eq (devices : List DeviceResultEntry) :
    acquire_response_device_list devices = grantedDescriptors devices := by
  rw [acquire_response_device_list, foldl_acquire_fold_step]
  simp

/-! Claim theorems. -/

/-- C2 (code_bug evidence): the finishing query loop of
xdp_portal_usb_finish_acquire_devices gives a failed AcquireDevicesFinish
call no handling at all - the page is silently skipped and the call is
re-issued, so the loop never aborts with the error.  Concretely, with a
single failing reply the loop never returns (none, the loop spinning), and
with a failing reply followed by a finished page it returns success as if
the failure had not happened.  This contradicts the claim that a failed
page call aborts the loop and surfaces a descriptive error. -/
theorem finish_loop_retries_failed_page :
    (∀ (ps : List FinishPage) (acc : List XdpUsbDevice),
        xdp_portal_usb_finish_acquire_devices (none :: ps) acc =
          xdp_portal_usb_finish_acquire_devices ps acc) ∧
    xdp_portal_usb_finish_acquire_devices [none] [] = none ∧
    xdp_portal_usb_finish_acquire_devices [none, some ([], true)] [] = some [] :=
  ⟨fun _ _ => rfl, rfl, rfl⟩

/-- C3: when every AcquireDevicesFinish round trip succeeds, the loop
accumulates one Acquired Device record per decoded page entry across all
unfinished pages, stops at the first page carrying finished=true without
consuming anything after it (the result does not depend on rest), and the
returned list has exactly one record per requested identifier whenever the
pages jointly list exactly the requested ids. -/
theorem finish_acquire_one_record_per_id (pre : List (List DeviceResultEntry))
    (lastEntries : List DeviceResultEntry) (rest : List FinishPage)
    (ids : List String)
    (hids : List.map Prod.fst (pre.flatten ++ lastEntries) = ids) :
    xdp_portal_usb_finish_acquire_devices
        (List.map (fun es => some (es, false)) pre ++ some (lastEntries, true) :: rest) [] =
      some (List.map decode_acquired_device (pre.flatten ++ lastEntries)) ∧
    (List.map decode_acquired_device (pre.flatten ++ lastEntries)).length = ids.length ∧
    List.map XdpUsbDevice.id
        (List.map decode_acquired_device (pre.flatten ++ lastEntries)) = ids := by
  refine ⟨?_, ?_, ?_⟩
  · rw [finish_skip_unfinished_pages, finish_finished_page]
    simp
  · rw [← hids]
    simp only [List.length_map]
  · rw [← hids, List.map_map]
    apply List.map_congr_left
    intro e _
    exact decode_acquired_device_id e

/-- Witness for C3 at a concrete two-page stream: one unfinished page with
one granted device, a finished page with one denied device, a failing reply
after the finished page that is never reached. -/
theorem finish_acquire_one_record_per_id_witness :
    xdp_portal_usb_finish_acquire_devices
        [some ([("a", { success := some true, fd := some 3, error := none })], false),
         some ([("b", { success := some false, fd := none, error := some "denied" })], true),
         none] [] =
      some (List.map decode_acquired_device
        (([[("a", { success := some true, fd := some 3, error := none })]] :
            List (List DeviceResultEntry)).flatten ++
          [("b", { success := some false, fd := none, error := some "denied" })])) :=
  (finish_acquire_one_record_per_id
    [[("a", { success := some true, fd := some 3, error := none })]]
    [("b", { success := some false, fd := none, error := some "denied" })]
    [none] ["a", "b"] rfl).1

/-- C4 (counterexample): the claim as stated is false on the code.  On a
Response with status 0 whose single device result map carries success=false
and error denied, acquire_response_received resolves successfully with the
empty descriptor list: a denied device contributes no element, so no
one-element result list is produced by the Response path. -/
theorem response_denied_not_one_element : ¬ responseDeniedOneElementClaim := by
  intro hclaim
  obtain ⟨fds, hres, hlen⟩ := hclaim
  have h0 : acquire_response_received 0
      [("dev1", { success := some false, fd := none, error := some "denied" })] =
      UsbResolution.success [] := rfl
  rw [h0] at hres
  injection hres with h
  rw [← h] at hlen
  simp at hlen

/-- C4 (amended): on a status-0 Response the task resolves successfully
with only the descriptors of successfully acquired devices, so the denied
device contributes nothing there; the one-element record with that id,
success=false, fd=-1 and error denied is produced by the finishing query
(append_variant_to_fd_list, via xdp_usb_device_error_new) when it decodes
the same result map. -/
theorem denied_device_record_from_finish_query :
    acquire_response_received 0
        [("dev1", { success := some false, fd := none, error := some "denied" })] =
      UsbResolution.success [] ∧
    append_variant_to_fd_list []
        [("dev1", { success := some false, fd := none, error := some "denied" })] =
      [{ id := "dev1", success := false, fd := -1, error := some "denied" }] :=
  ⟨rfl, rfl⟩

/-- C7: acquire_response_received dispatches on the decoded Response
status exactly as the spec describes: status 0 resolves successfully with
the ordered list of descriptors of the devices whose result map grants
success (the spec-worded grantedDescriptors), status 1 resolves with the
cancellation error, and every other status resolves with the generic
failure error; the cancellation and failure resolutions are distinct, and
no successful resolution coincides with the cancellation one. -/
theorem response_status_dispatch (status : Nat) (devices : List DeviceResultEntry) :
    acquire_response_received status devices =
      (if status = 0 then UsbResolution.success (grantedDescriptors devices)
       else if status = 1 then UsbResolution.ioCancelled "Acquire USB devices canceled"
       else UsbResolution.ioError "Acquire USB devices failed") ∧
    UsbResolution.ioCancelled "Acquire USB devices canceled" ≠
      UsbResolution.ioError "Acquire USB devices failed" ∧
    ∀ fds, UsbResolution.success fds ≠
      UsbResolution.ioCancelled "Acquire USB devices canceled" := by
  refine ⟨?_, by simp, fun fds => by simp⟩
  unfold acquire_response_received
  rw [acquire_response_device_list_eq]

/-- Witness for C7 at concrete statuses 0, 1, 2. -/
theorem response_status_dispatch_witness :
    acquire_response_received 0 [] = UsbResolution.success [] ∧
    acquire_response_received 1 [] =
      UsbResolution.ioCancelled "Acquire USB devices canceled" ∧
    acquire_response_received 2 [] =
      UsbResolution.ioError "Acquire USB devices failed" := by
  refine ⟨?_, ?_, ?_⟩
  · have h := (response_status_dispatch 0 []).1
    simpa [grantedDescriptors] using h
  · have h := (response_status_dispatch 1 []).1
    simpa using h
  · have h := (response_status_dispatch 2 []).1
    simpa using h

/-- C1 (code_bug evidence): resolve-once fails on the code.  The
AcquireDevices method call is issued with a NULL cancellable and nothing
ever detaches its reply callback, so if the cancellable fires first -
acquire_cancelled_cb resolves the task with a cancellation error and frees
the call - the still-pending usb_call_returned callback is later delivered
on the already-freed call; when that reply is a transport error its error
branch resolves the freed task a second time.  The trace below delivers
exactly those two events: two resolutions reach the completion sink and one
callback runs after teardown. -/
theorem acquire_call_resolves_twice_after_cancel :
    (runAcquire initAcquireSys
        [AcquireEvent.cancelFired, AcquireEvent.methodReply true]).resolutions =
      [UsbResolution.ioCancelled "Acquire USB devices call canceled by caller",
       UsbResolution.ioError "AcquireDevices call failed"] ∧
    (runAcquire initAcquireSys
        [AcquireEvent.cancelFired, AcquireEvent.methodReply true]).postFreeCallbacks = 1 :=
  ⟨rfl, rfl⟩

theorem acquireStep_preserves_inv (s : AcquireSys) (e : AcquireEvent)
    (hs : AcquireInv s) : AcquireInv (acquireStep s e) := by
  intro c hc
  cases e with
  | cancelFired =>
      revert hc
      unfold acquireStep
      cases hctx : s.ctx with
      | none => exact fun hc => hs c hc
      | some c0 =>
          by_cases hcon : c0.cancelConnected
          · simp [hcon]
          · simp only [hcon, if_false]
            exact fun hc => hs c hc
  | responseSignal status devices =>
      revert hc
      unfold acquireStep
      cases hctx : s.ctx with
      | none => exact fun hc => hs c hc
      | some c0 =>
          by_cases hsub : c0.signalSubscribed
          · simp [hsub]
          · simp only [hsub, if_false]
            exact fun hc => hs c hc
  | methodReply failed =>
      revert hc
      unfold acquireStep
      by_cases hp : s.replyPending
      · cases hctx : s.ctx with
        | none =>
            cases failed <;> simp [hp]
        | some c0 =>
            cases failed
            · simp only [hp, if_true, Bool.false_eq_true, if_false]
              intro hc
              injection hc with hcc
              rw [← hcc]
              exact hs c0 hctx
            · simp [hp]
      · simp only [hp, Bool.not_eq_true] at *
        simp only [hp, Bool.false_eq_true, if_false]
        exact fun hc => hs c hc

theorem runAcquire_preserves_inv (t : List AcquireEvent) (s : AcquireSys)
    (hs : AcquireInv s) : AcquireInv (runAcquire s t) := by
  induction t generalizing s with
  | nil => exact hs
  | cons e t ih => exact ih (acquireStep s e) (acquireStep_preserves_inv s e hs)

theorem initAcquireSys_inv : AcquireInv initAcquireSys := by
  intro c hc
  injection hc with h
  rw [← h]
  exact ⟨rfl, rfl, rfl⟩

/-- C6: cancellation semantics of an in-flight AcquireDevices call.  In any
reachable state in which the call is still live with its cancelled hook
attached, nothing has been delivered to the completion sink yet, and the
cancellable firing runs acquire_cancelled_cb: one more Close call is
attempted on the correlation path and the caller receives exactly the
cancellation error.  In any reachable state in which the call has already
resolved (something reached the completion sink), the hook has been
detached and the cancellable firing leaves the system unchanged. -/
theorem cancellation_before_and_after_resolution (t : List AcquireEvent) :
    (∀ c, (runAcquire initAcquireSys t).ctx = some c →
        (runAcquire initAcquireSys t).resolutions = [] ∧
        (acquireStep (runAcquire initAcquireSys t) AcquireEvent.cancelFired).closeCalls =
          (runAcquire initAcquireSys t).closeCalls + 1 ∧
        (acquireStep (runAcquire initAcquireSys t) AcquireEvent.cancelFired).resolutions =
          [UsbResolution.ioCancelled "Acquire USB devices call canceled by caller"]) ∧
    ((runAcquire initAcquireSys t).resolutions ≠ [] →
        acquireStep (runAcquire initAcquireSys t) AcquireEvent.cancelFired =
          runAcquire initAcquireSys t) := by
  have hinv := runAcquire_preserves_inv t initAcquireSys initAcquireSys_inv
  constructor
  · intro c hc
    obtain ⟨hcon, hsub, hres⟩ := hinv c hc
    refine ⟨hres, ?_, ?_⟩
    · unfold acquireStep
      rw [hc]
      simp [hcon]
    · unfold acquireStep
      rw [hc]
      simp [hcon, hres]
  · intro hne
    cases hctx : (runAcquire initAcquireSys t).ctx with
    | some c => exact absurd (hinv c hctx).2.2 hne
    | none =>
        unfold acquireStep
        rw [hctx]

/-- Witness for C6: with no event delivered yet, the cancellable firing
performs the Close attempt; after a status-1 Response has resolved the
call, the cancellable firing changes nothing. -/
theorem cancellation_before_and_after_resolution_witness :
    (acquireStep (runAcquire initAcquireSys []) AcquireEvent.cancelFired).closeCalls =
      (runAcquire initAcquireSys []).closeCalls + 1 ∧
    acquireStep (runAcquire initAcquireSys [AcquireEvent.responseSignal 1 []])
        AcquireEvent.cancelFired =
      runAcquire initAcquireSys [AcquireEvent.responseSignal 1 []] :=
  ⟨((cancellation_before_and_after_resolution []).1
      { signalSubscribed := true, cancelConnected := true } rfl).2.1,
   (cancellation_before_and_after_resolution [AcquireEvent.responseSignal 1 []]).2
      (by simp [runAcquire, acquireStep, initAcquireSys])⟩

/-- C5: when acquire_devices runs with the parent handle available, the
emitted step sequence subscribes to the Response signal on the correlation
path strictly before the AcquireDevices method call is issued, and every
method call in the sequence comes strictly after that subscription. -/
theorem subscription_before_acquire_call (sender token handle : String)
    (call : UsbCall) (hc : Bool) (h : call.parent_handle = some handle) :
    ∃ i j, i < j ∧
      (acquire_devices sender token call hc).snd.get? i =
        some (BusStep.signalSubscribe (requestPathFor sender token)) ∧
      (acquire_devices sender token call hc).snd.get? j =
        some (BusStep.methodCall "AcquireDevices" handle
          (List.map add_to_variant call.devices) token) ∧
      (∀ m member hdl devs tok,
        (acquire_devices sender token call hc).snd.get? m =
          some (BusStep.methodCall member hdl devs tok) → i < m) := by
  have hsteps : (acquire_devices sender token call hc).snd =
      [BusStep.signalSubscribe (requestPathFor sender token),
       BusStep.methodCall "AcquireDevices" handle
         (List.map add_to_variant call.devices) token] := by
    unfold acquire_devices
    rw [h]
  refine ⟨0, 1, Nat.zero_lt_one, ?_, ?_, ?_⟩
  · rw [hsteps]
    rfl
  · rw [hsteps]
    rfl
  · intro m member hdl devs tok hm
    rw [hsteps] at hm
    match m with
    | 0 => simp at hm
    | n + 1 => exact Nat.succ_pos n

/-- Witness for C5 at a concrete call whose parent handle is already the
empty string (no parent context) and an empty device batch. -/
theorem subscription_before_acquire_call_witness :
    ∃ i j, i < j ∧
      (acquire_devices "sender1" "token1"
        { parent_handle := some "", devices := [], request_path := none,
          signal_id := 0, cancelled_id := 0 } true).snd.get? i =
        some (BusStep.signalSubscribe (requestPathFor "sender1" "token1")) ∧
      (acquire_devices "sender1" "token1"
        { parent_handle := some "", devices := [], request_path := none,
          signal_id := 0, cancelled_id := 0 } true).snd.get? j =
        some (BusStep.methodCall "AcquireDevices" ""
          (List.map add_to_variant ([] : List XdpUsbDeviceAcquireRequest)) "token1") ∧
      (∀ m member hdl devs tok,
        (acquire_devices "sender1" "token1"
          { parent_handle := some "", devices := [], request_path := none,
            signal_id := 0, cancelled_id := 0 } true).snd.get? m =
          some (BusStep.methodCall member hdl devs tok) → i < m) :=
  subscription_before_acquire_call "sender1" "token1" ""
    { parent_handle := some "", devices := [], request_path := none,
      signal_id := 0, cancelled_id := 0 } true rfl

/-- C8: teardown of the Session / USB Session pair, with the generic
xdp_session_close modelled from the spec (session.c is outside these
sources).  Explicitly closing the USB Session and then destroying it
produces exactly the state of destroying it directly while Active, apart
from the broker-side Close that the explicit close itself sends; in every
variant - direct destruction, close then destroy, even a double close then
destroy - the weak backlink of the parent Session is nulled and the
DeviceEvents subscription taken at construction is unsubscribed exactly
once, never twice, and no lifecycle diagnostic fires. -/
theorem usb_session_teardown :
    (xdp_usb_session_finalize (xdp_usb_session_close xdp_usb_session_new_state)).parent_usb_session = false ∧
    (xdp_usb_session_finalize xdp_usb_session_new_state).parent_usb_session = false ∧
    (xdp_usb_session_finalize (xdp_usb_session_close xdp_usb_session_new_state)).unsubscribeCount = 1 ∧
    (xdp_usb_session_finalize xdp_usb_session_new_state).unsubscribeCount = 1 ∧
    (xdp_usb_session_finalize
        (xdp_usb_session_close (xdp_usb_session_close xdp_usb_session_new_state))).unsubscribeCount = 1 ∧
    (xdp_usb_session_finalize (xdp_usb_session_close xdp_usb_session_new_state)).criticalCount = 0 ∧
    (xdp_usb_session_finalize (xdp_usb_session_close xdp_usb_session_new_state) =
      { xdp_usb_session_finalize xdp_usb_session_new_state with parentClosedOnBroker := true }) := by
  refine ⟨rfl, rfl, rfl, rfl, rfl, rfl, rfl⟩

/-- C9: ordering of the parent-window export against the request.  With a
parent context supplied (its handle not yet exported), the entry point
emits only the export request - in particular no AcquireDevices method
call reaches the bus - and once the export callback stores the exported
handle, re-entering acquire_devices issues the request with that handle
embedded in the payload.  With no parent context, the request goes out
immediately with the empty handle string. -/
theorem parent_export_before_request (devices : List XdpUsbDeviceAcquireRequest)
    (sender token handle : String) (hc : Bool) :
    (xdp_portal_usb_acquire_devices true devices sender token hc).snd =
      [BusStep.parentExport] ∧
    (∀ b, b ∈ (xdp_portal_usb_acquire_devices true devices sender token hc).snd →
      ∀ member hdl devs tok, b ≠ BusStep.methodCall member hdl devs tok) ∧
    (acquire_devices sender token
        (parent_exported handle
          (xdp_portal_usb_acquire_devices true devices sender token hc).fst) hc).snd =
      [BusStep.signalSubscribe (requestPathFor sender token),
       BusStep.methodCall "AcquireDevices" handle
         (List.map add_to_variant
           (List.map xdp_usb_device_acquire_request_copy devices)) token] ∧
    (xdp_portal_usb_acquire_devices false devices sender token hc).snd =
      [BusStep.signalSubscribe (requestPathFor sender token),
       BusStep.methodCall "AcquireDevices" ""
         (List.map add_to_variant
           (List.map xdp_usb_device_acquire_request_copy devices)) token] := by
  refine ⟨rfl, ?_, rfl, rfl⟩
  intro b hb member hdl devs tok
  have hsnd : (xdp_portal_usb_acquire_devices true devices sender token hc).snd =
      [BusStep.parentExport] := rfl
  rw [hsnd] at hb
  simp at hb
  rw [hb]
  simp

/-- Witness for C9: the single step emitted with a parent context present
is the export request, not the AcquireDevices call. -/
theorem parent_export_before_request_witness :
    BusStep.parentExport ≠
      BusStep.methodCall "AcquireDevices" "" ([] : List (String × Bool)) "token1" :=
  (parent_export_before_request [] "sender1" "token1" "handle1" false).2.1
    BusStep.parentExport (by simp [xdp_portal_usb_acquire_devices, acquire_devices])
    "AcquireDevices" "" [] "token1"

/-- C10: starting an acquisition copies the caller device-request array
element-wise through xdp_usb_device_acquire_request_copy, each copy being a
fresh object built by xdp_usb_device_acquire_request_new from the id and
writable flag of its source and therefore equal-valued to it; the call
record stores exactly that copied array (the pure embedding keeps the
caller array untouched by construction), and the payload later encoded from
the stored copies coincides with the one the caller values describe. -/
theorem acquire_devices_deep_copies_requests (hasParent : Bool)
    (devices : List XdpUsbDeviceAcquireRequest) (sender token : String)
    (hc : Bool) :
    (∀ r, xdp_usb_device_acquire_request_copy r =
      xdp_usb_device_acquire_request_new r.id r.writable) ∧
    (∀ r, xdp_usb_device_acquire_request_copy r = r) ∧
    (xdp_portal_usb_acquire_devices hasParent devices sender token hc).fst.devices =
      List.map xdp_usb_device_acquire_request_copy devices ∧
    List.map xdp_usb_device_acquire_request_copy devices = devices ∧
    List.map add_to_variant (List.map xdp_usb_device_acquire_request_copy devices) =
      List.map add_to_variant devices := by
  have hcopy : ∀ r, xdp_usb_device_acquire_request_copy r = r := by
    intro r
    cases r
    rfl
  have hmap : List.map xdp_usb_device_acquire_request_copy devices = devices := by
    rw [List.map_congr_left fun r _ => hcopy r]
    simp
  refine ⟨fun r => rfl, hcopy, ?_, hmap, by rw [hmap]⟩
  cases hasParent <;>
    simp [xdp_portal_usb_acquire_devices, acquire_devices]
